import Mathlib

/-
  Verification of the batch execution engine of the Yakeen API tester.

  The development shallowly embeds the browser-side batch runner
  (runBatchCalls / makeApiCallWithParams in src/app/page.tsx and
  src/unnamed/part_002), the proxy route (src/unnamed/part_001), the
  graph-buffer flushes, and the retry helper (src/unnamed/part_003).
  Wall-clock time, logging and React rendering are elided; Math.random
  draws, the proxy transport and the canary configuration are passed in
  as explicit oracles.  JavaScript numbers are modelled as exact
  rationals, JavaScript truthiness of optionals via explicit helpers.
-/

namespace Yakeen

/-- Call parameters sent to the API: a Hijri year-month string and a national id. -/
structure CallParams where
  dateString : String
  nin : String
deriving DecidableEq

/-- Status classification of one recorded outcome.  The source type is the
string union 'success' | 'error'; there is no third alternative. -/
inductive CallStatus where
  | success
  | error
deriving DecidableEq

/-- One recorded call outcome (interface ApiResult in the source, without the
wall-clock timestamp and the opaque response payload). -/
structure ApiResult where
  id : Nat
  params : CallParams
  status : CallStatus
  errorMsg : Option String
  duration : ℚ
  statusCode : Nat
deriving DecidableEq

/-- Body of the JSON document returned by the proxy route, as decoded by the
browser (fields are optional because the error body and the success body
carry different fields). -/
structure ProxyBody where
  status : Option Nat := none
  ok : Option Bool := none
  data : Option String := none
  error : Option String := none
  code : Option String := none
  responseTime : Option ℚ := none
deriving DecidableEq

/-- JavaScript truthiness of an optional string: undefined and the empty
string are falsy. -/
def jsStrTruthy : Option String → Bool
  | some s => s ≠ ""
  | none => false

/-- JavaScript "a || b" for an optional number: undefined and 0 are falsy. -/
def jsOrNat : Option Nat → Nat → Nat
  | some 0, d => d
  | some (n+1), _ => n + 1
  | none, d => d

/-- JavaScript "a || b" for two strings: the empty string is falsy. -/
def jsOrStr (a b : String) : String := if a = "" then b else a

/-- What the browser-side fetch of the proxy URL can observe, distilled from
makeApiCallWithParams: the fetch promise rejects (network fault or abort),
the response body fails to parse as JSON, or a JSON body arrives together
with an HTTP status. -/
inductive TransportResult where
  | fetchThrow (isAbort : Bool) (message : String)
  | parseFail (httpStatus : Nat) (statusText : String)
  | proxyReply (httpStatus : Nat) (statusText : String) (body : ProxyBody)
deriving DecidableEq

/-- Browser-side executor for one call (makeApiCallWithParams in
src/app/page.tsx lines 221-413 and src/unnamed/part_002 lines 189-394,
logging elided).  Classifies the transport observation into an ApiResult:
a rejected fetch yields statusCode 0 and duration 0 (message 'Request
aborted' when the abort signal fired); an unparseable body yields the
HTTP status (or 500); otherwise the proxy body's status field wins, the
error branch is taken when the HTTP response is not ok or the body's
error field is truthy, and the success/error split follows the body's ok
flag. -/
def makeApiCallWithParams (id : Nat) (p : CallParams) (t : TransportResult) : ApiResult :=
  match t with
  | .fetchThrow isAbort message =>
      let errorMessage := if isAbort then "Request aborted"
        else if message = "" then "Unknown error" else message
      { id := id, params := p, status := .error, errorMsg := some errorMessage,
        duration := 0, statusCode := 0 }
  | .parseFail httpStatus statusText =>
      { id := id, params := p, status := .error,
        errorMsg := some ("Failed to parse response: " ++ Nat.repr httpStatus ++ " " ++ statusText),
        duration := 0, statusCode := jsOrNat (some httpStatus) 500 }
  | .proxyReply httpStatus statusText body =>
      let responseOk : Bool := decide (200 ≤ httpStatus ∧ httpStatus < 300)
      let apiResponseTime : ℚ := body.responseTime.getD 0
      let statusCode := jsOrNat body.status (jsOrNat (some httpStatus) 500)
      if !responseOk || jsStrTruthy body.error then
        { id := id, params := p, status := .error,
          errorMsg := some (jsOrStr (body.error.getD "")
            ("Proxy error: " ++ Nat.repr httpStatus ++ " " ++ statusText)),
          duration := apiResponseTime, statusCode := statusCode }
      else
        { id := id, params := p,
          status := if body.ok.getD false then .success else .error,
          errorMsg := none,
          duration := apiResponseTime, statusCode := statusCode }

/-- Result of the upstream https.request made by the proxy route
(src/unnamed/part_001): either a response with a status code, body text and
server-measured response time, or a socket-level fault carrying an optional
Node error code such as ENOTFOUND, ECONNREFUSED or CERT_HAS_EXPIRED. -/
inductive UpstreamResult where
  | reply (statusCode : Nat) (data : String) (responseTime : ℚ)
  | fault (code : Option String) (message : String) (responseTime : ℚ)
deriving DecidableEq

/-- Error description built by the proxy catch handler
(src/unnamed/part_001 lines 123-147). -/
def proxyDetailedError (code : Option String) (message : String) : String :=
  let errorMessage := jsOrStr message "Failed to fetch"
  if code = some "CERT_HAS_EXPIRED" ∨ code = some "UNABLE_TO_VERIFY_LEAF_SIGNATURE" then
    "SSL Certificate Error: " ++ errorMessage ++ ". The API may be using a self-signed certificate."
  else if code = some "ENOTFOUND" ∨ code = some "ECONNREFUSED" then
    "Connection Error: " ++ errorMessage ++ ". Cannot reach the API server."
  else errorMessage

/-- HTTP reply of the proxy GET route as (status, statusText, JSON body), from
src/unnamed/part_001: an upstream reply is forwarded with HTTP 200 and a body
carrying status / ok / data / responseTime; an upstream fault becomes HTTP 500
with a body carrying error / code / responseTime and no status field. -/
def proxyGET (u : UpstreamResult) : Nat × String × ProxyBody :=
  match u with
  | .reply sc data t =>
      (200, "OK",
        { status := some (jsOrNat (some sc) 200),
          ok := some (decide (200 ≤ jsOrNat (some sc) 200 ∧ jsOrNat (some sc) 200 < 300)),
          data := some data,
          responseTime := some t })
  | .fault code message t =>
      (500, "Internal Server Error",
        { error := some (proxyDetailedError code message),
          code := code,
          responseTime := some t })

/-- One browser call routed through the proxy: the composition of proxyGET and
the browser-side executor. -/
def clientCall (id : Nat) (p : CallParams) (u : UpstreamResult) : ApiResult :=
  let r := proxyGET u
  makeApiCallWithParams id p (.proxyReply r.1 r.2.1 r.2.2)

/-- Year component of generateRandomDateString: Math.floor(r * 100) + 1400 for
a Math.random draw r in [0,1). -/
def generateRandomYear (r : ℚ) : Nat := (Int.floor (r * 100)).toNat + 1400

/-- Month component of generateRandomDateString: Math.floor(r * 12) + 1. -/
def generateRandomMonth (r : ℚ) : Nat := (Int.floor (r * 12)).toNat + 1

/-- String(month).padStart(2, '0') for a month value below 100. -/
def padMonth (m : Nat) : String := if m < 10 then "0" ++ Nat.repr m else Nat.repr m

/-- generateRandomDateString from two Math.random draws. -/
def generateRandomDateString (r1 r2 : ℚ) : String :=
  Nat.repr (generateRandomYear r1) ++ "-" ++ padMonth (generateRandomMonth r2)

/-- generateRandomNIN as a number: Math.floor(r * 900000000) + 100000000. -/
def generateRandomNIN (r : ℚ) : Nat := (Int.floor (r * 900000000)).toNat + 100000000

/-- Per-call random draws (two for the date string, one for the nin) assembled
into the parameters a randomized call uses (makeApiCall in the source). -/
def randomParams (d : ℚ × ℚ × ℚ) : CallParams :=
  { dateString := generateRandomDateString d.1 d.2.1,
    nin := Nat.repr (generateRandomNIN d.2.2) }

/-- Running batch state: recorded outcomes plus the counters kept by
runBatchCalls (successCount, errorCount, totalTime). -/
structure BatchState where
  results : List ApiResult
  success : Nat
  error : Nat
  totalTime : ℚ
deriving DecidableEq

/-- State at the start of a run (counters zeroed by runBatchCalls before the
canary configuration is fetched). -/
def initialBatchState : BatchState :=
  { results := [], success := 0, error := 0, totalTime := 0 }

/-- Record one outcome exactly as both batch loops do: push it to the results
list and bump the status counters and the running duration sum.  Both the
sequential loop and the parallel allSettled handler perform these updates per
recorded outcome. -/
def recordOutcome (s : BatchState) (r : ApiResult) : BatchState :=
  { results := s.results ++ [r],
    success := s.success + (if r.status = .success then 1 else 0),
    error := s.error + (if r.status = .error then 1 else 0),
    totalTime := s.totalTime + r.duration }

/-- Statistics snapshot as published by the setStats call sites:
total = batchResults.length, averageTime = totalTime / total (the JavaScript
"|| 0" guard for an empty list coincides with rational division by zero). -/
structure DisplayedStats where
  total : Nat
  success : Nat
  error : Nat
  averageTime : ℚ
deriving DecidableEq

/-- Derive the displayed statistics from the running state. -/
def displayedStats (s : BatchState) : DisplayedStats :=
  { total := s.results.length, success := s.success, error := s.error,
    averageTime := s.totalTime / (s.results.length : ℚ) }

/-- Canary configuration fetched from /api/test-values; a missing environment
variable surfaces as the empty string (testValues.dateString || ''). -/
structure TestValues where
  dateString : String
  nin : String
deriving DecidableEq

/-- Outcome of one uncancelled run: the final state and whether the run failed
to start because the canary configuration was unavailable. -/
structure RunOutput where
  state : BatchState
  startFailed : Bool
deriving DecidableEq

/-- Sequential-mode runBatchCalls for an uncancelled run (src/app/page.tsx
lines 494-604, src/unnamed/part_002 lines 493-650): reset the state, fail
fast when either canary value is empty, otherwise issue call 1 with the
canary parameters and calls 2..count with freshly generated random
parameters, recording each outcome in order.  The transport behaviour of
call i is supplied by the oracle tr, the Math.random draws by draws. -/
def runBatchCalls (cfg : TestValues) (draws : Nat → ℚ × ℚ × ℚ)
    (tr : Nat → TransportResult) (count : Nat) : RunOutput :=
  if cfg.dateString = "" ∨ cfg.nin = "" then
    { state := initialBatchState, startFailed := true }
  else
    let canary := makeApiCallWithParams 1 ⟨cfg.dateString, cfg.nin⟩ (tr 1)
    let s1 := recordOutcome initialBatchState canary
    { state := (List.range (count - 1)).foldl
        (fun s i => recordOutcome s
          (makeApiCallWithParams (i + 2) (randomParams (draws (i + 2))) (tr (i + 2)))) s1,
      startFailed := false }

/-- Incremental average state kept by src/app/page.tsx: the displayed average
and the count it covers.  One update step performs
averageTime = (averageTime * (currentTotal - 1) + duration) / currentTotal
(page.tsx lines 568-575); the canary's direct assignment at line 553 is the
n = 0 instance of the same formula. -/
def incAvgStep (st : ℚ × Nat) (d : ℚ) : ℚ × Nat :=
  ((st.1 * (st.2 : ℚ) + d) / ((st.2 : ℚ) + 1), st.2 + 1)

/-- Incremental average of a duration sequence, folded from the zeroed state. -/
def incrementalAverage (ds : List ℚ) : ℚ × Nat :=
  ds.foldl incAvgStep (0, 0)

/-- One point of the response-time series (interface ResponseTimeData). -/
structure GraphPoint where
  time : String
  duration : ℚ
  success : Nat
  error : Nat
deriving DecidableEq

/-- Last n elements of a list (the semantics of Array.prototype.slice(-n) for
n at most the length, and of the trimming both flush variants intend). -/
def takeLast (n : Nat) (xs : List α) : List α := xs.drop (xs.length - n)

/-- JavaScript xs.slice(start) for an integer start: a negative start counts
from the end (clamped at 0), a non-negative start drops that many elements
from the front. -/
def jsSliceFrom (xs : List α) (start : Int) : List α :=
  if start < 0 then xs.drop ((xs.length : Int) + start).toNat
  else xs.drop start.toNat

/-- Flush of the graph buffer in src/unnamed/part_002 (addGraphDataPoint and
the deferred sequential-mode flushes): newData = [...prev, ...chunk] followed
by newData.slice(-100). -/
def graphFlush100 (prev chunk : List GraphPoint) : List GraphPoint :=
  jsSliceFrom (prev ++ chunk) (-100)

/-- Flush of the graph buffer in src/app/page.tsx (updateUIAsync lines 88-100):
if the combined length fits the configured capacity the chunk is appended,
otherwise prev is first cut with prev.slice(-(graphMaxPoints - buffer.length)). -/
def updateUIFlush (cap : Nat) (prev chunk : List GraphPoint) : List GraphPoint :=
  if prev.length + chunk.length ≤ cap then prev ++ chunk
  else jsSliceFrom prev (-((cap : Int) - (chunk.length : Int))) ++ chunk

/-- Buffer contents after a run of part_002-style flushes, one per staged
chunk, starting empty. -/
def graphSeries100 (chunks : List (List GraphPoint)) : List GraphPoint :=
  chunks.foldl graphFlush100 []

/-- Buffer contents after a run of page.tsx-style flushes, one per staged
chunk, starting empty. -/
def graphSeriesPage (cap : Nat) (chunks : List (List GraphPoint)) : List GraphPoint :=
  chunks.foldl (updateUIFlush cap) []

/-- Events of the parallel runner as observed at the scheduler: a call is
issued (the promise is pushed into batchPromises) or its settled outcome is
recorded (the allSettled handler pushes it into batchResults). -/
inductive PoolEvent where
  | issue (id : Nat)
  | record (id : Nat)
deriving DecidableEq

/-- Events of one parallel chunk of size s starting at remaining-call index
start: the dispatch loop issues calls start+2 .. start+s+1, then
Promise.allSettled resolves and the handler records each outcome.  Completion
order inside a chunk is arbitrary in the browser; the trace fixes issue order,
which does not affect the issued-minus-recorded count. -/
def chunkEvents (start s : Nat) : List PoolEvent :=
  (List.range s).map (fun j => PoolEvent.issue (start + j + 2)) ++
    (List.range s).map (fun j => PoolEvent.record (start + j + 2))

/-- Event trace of the parallel loop of src/unnamed/part_002 lines 651-712:
chunks of up to threadCount calls are issued, each chunk is awaited with
Promise.allSettled as a whole, and only then is the next chunk issued.
Arguments: fuel (an upper bound on the chunk count, structural only; one
chunk consumes at least one remaining call, so fuel = remaining suffices),
the start index, and the number of remaining calls. -/
def parallelTraceAux (threadCount : Nat) : Nat → Nat → Nat → List PoolEvent
  | 0, _, _ => []
  | fuel + 1, start, remaining =>
    if 0 < threadCount ∧ 0 < remaining then
      let s := min threadCount remaining
      chunkEvents start s ++ parallelTraceAux threadCount fuel (start + s) (remaining - s)
    else []

/-- Full parallel trace for remaining calls (count - 1 of them in the source,
issued after the canary). -/
def parallelTrace (threadCount remaining : Nat) : List PoolEvent :=
  parallelTraceAux threadCount remaining 0 remaining

/-- Whether a pool event is an issue event. -/
def PoolEvent.isIssue : PoolEvent → Bool
  | .issue _ => true
  | .record _ => false

/-- Number of issued-but-not-recorded calls after a list of events. -/
def inflight (tr : List PoolEvent) : Nat :=
  tr.countP PoolEvent.isIssue - tr.countP (fun e => !e.isIssue)

/-- The immediate-refill property the specification ascribes to the parallel
runner: whenever a recorded completion leaves further calls still unissued,
the very next scheduler event issues one. -/
def immediateRefill (tr : List PoolEvent) : Prop :=
  ∀ i : Fin tr.length,
    (tr.get i).isIssue = false →
    (tr.take (i.1 + 1)).countP PoolEvent.isIssue < tr.countP PoolEvent.isIssue →
    ∃ h : i.1 + 1 < tr.length, (tr.get ⟨i.1 + 1, h⟩).isIssue = true

/-- Retry configuration (interface RetryConfig in src/lib/types/api.ts). -/
structure RetryConfig where
  maxRetries : Nat
  retryDelay : Nat
  retryableStatusCodes : List Nat

/-- Shape of a thrown error as inspected by withRetry: an optional HTTP
status code and an optional Node error code. -/
structure ErrObj where
  statusCode : Option Nat
  code : Option String
deriving DecidableEq

/-- Retryability test of src/unnamed/part_003 lines 137-140:
config.retryableStatusCodes.includes(errorObj.statusCode || 0) or
errorObj.code one of ETIMEDOUT / ECONNRESET / ENOTFOUND. -/
def isRetryable (cfg : RetryConfig) (e : ErrObj) : Bool :=
  cfg.retryableStatusCodes.contains (jsOrNat e.statusCode 0) ||
    (match e.code with
     | some c => c ≠ "" && ["ETIMEDOUT", "ECONNRESET", "ENOTFOUND"].contains c
     | none => false)

/-- Terminal result of withRetry: the value together with the retryCount, or
the error that escaped. -/
inductive RetryOutcome (α : Type) where
  | ok (result : α) (retryCount : Nat)
  | err (e : ErrObj)
deriving DecidableEq

/-- One run of withRetry: its outcome and how many times fn was invoked. -/
structure RetryRun (α : Type) where
  outcome : RetryOutcome α
  invocations : Nat
deriving DecidableEq

/-- Loop body of withRetry (src/unnamed/part_003 lines 117-158), with the
behaviour of attempt number k supplied by the oracle fn.  A successful
attempt returns with the current retryCount; a failure on the final attempt
(attempt >= maxRetries) breaks and rethrows it; a non-retryable failure is
rethrown immediately; otherwise retryCount is bumped and the next attempt
runs after the backoff delay (elided). -/
def withRetryLoop (fn : Nat → Except ErrObj α) (cfg : RetryConfig) :
    Nat → Nat → Nat → RetryRun α
  | 0, _, _ => { outcome := .err ⟨none, none⟩, invocations := 0 }
  | fuel + 1, attempt, retryCount =>
    match fn attempt with
    | .ok v => { outcome := .ok v retryCount, invocations := 1 }
    | .error e =>
      if attempt < cfg.maxRetries then
        if isRetryable cfg e then
          let r := withRetryLoop fn cfg fuel (attempt + 1) (retryCount + 1)
          { outcome := r.outcome, invocations := r.invocations + 1 }
        else { outcome := .err e, invocations := 1 }
      else { outcome := .err e, invocations := 1 }

/-- withRetry entry point: attempts start at 0 with retryCount 0.  The fuel
maxRetries + 1 bounds the structural recursion; the loop stops by itself at
attempt = maxRetries, so the fuel-exhausted branch is unreachable from here. -/
def withRetry (fn : Nat → Except ErrObj α) (cfg : RetryConfig) : RetryRun α :=
  withRetryLoop fn cfg (cfg.maxRetries + 1) 0 0

/-! Helper lemmas about the executor and the recording fold. -/

theorem makeApiCallWithParams_id (id : Nat) (p : CallParams) (t : TransportResult) :
    (makeApiCallWithParams id p t).id = id := by
  cases t <;> simp only [makeApiCallWithParams] <;> split <;> rfl

theorem makeApiCallWithParams_params (id : Nat) (p : CallParams) (t : TransportResult) :
    (makeApiCallWithParams id p t).params = p := by
  cases t <;> simp only [makeApiCallWithParams] <;> split <;> rfl

theorem foldl_recordOutcome_results (f : Nat → ApiResult) :
    ∀ (l : List Nat) (s : BatchState),
      (l.foldl (fun st i => recordOutcome st (f i)) s).results = s.results ++ l.map f := by
  intro l
  induction l with
  | nil => intro s; simp
  | cons a l ih =>
      intro s
      rw [List.foldl_cons, ih]
      simp [recordOutcome]

theorem recordOutcome_invariant (s : BatchState) (r : ApiResult)
    (h : s.success + s.error = s.results.length) :
    (recordOutcome s r).success + (recordOutcome s r).error = (recordOutcome s r).results.length := by
  cases hr : r.status <;> simp [recordOutcome, hr] <;> omega

theorem foldl_recordOutcome_invariant :
    ∀ (rs : List ApiResult) (s : BatchState),
      s.success + s.error = s.results.length →
      (rs.foldl recordOutcome s).success + (rs.foldl recordOutcome s).error =
        (rs.foldl recordOutcome s).results.length := by
  intro rs
  induction rs with
  | nil => intro s h; simpa using h
  | cons r rs ih =>
      intro s h
      exact ih (recordOutcome s r) (recordOutcome_invariant s r h)

theorem foldl_recordOutcome_param_invariant (f : Nat → ApiResult) :
    ∀ (l : List Nat) (s : BatchState),
      s.success + s.error = s.results.length →
      (l.foldl (fun st i => recordOutcome st (f i)) s).success +
          (l.foldl (fun st i => recordOutcome st (f i)) s).error =
        (l.foldl (fun st i => recordOutcome st (f i)) s).results.length := by
  intro l
  induction l with
  | nil => intro s h; simpa using h
  | cons a l ih =>
      intro s h
      exact ih (recordOutcome s (f a)) (recordOutcome_invariant s (f a) h)

theorem foldl_recordOutcome_totalTime :
    ∀ (rs : List ApiResult) (s : BatchState),
      (rs.foldl recordOutcome s).totalTime = s.totalTime + (rs.map ApiResult.duration).sum := by
  intro rs
  induction rs with
  | nil => intro s; simp
  | cons r rs ih =>
      intro s
      simp only [List.foldl_cons, ih, recordOutcome, List.map_cons, List.sum_cons]
      ring

theorem foldl_recordOutcome_length :
    ∀ (rs : List ApiResult) (s : BatchState),
      (rs.foldl recordOutcome s).results.length = s.results.length + rs.length := by
  intro rs
  induction rs with
  | nil => intro s; simp
  | cons r rs ih =>
      intro s
      simp only [List.foldl_cons, ih, recordOutcome]
      simp
      omega

theorem runBatchCalls_results (cfg : TestValues) (draws : Nat → ℚ × ℚ × ℚ)
    (tr : Nat → TransportResult) (count : Nat)
    (h : ¬(cfg.dateString = "" ∨ cfg.nin = "")) :
    (runBatchCalls cfg draws tr count).state.results =
      makeApiCallWithParams 1 ⟨cfg.dateString, cfg.nin⟩ (tr 1) ::
        (List.range (count - 1)).map
          (fun i => makeApiCallWithParams (i + 2) (randomParams (draws (i + 2))) (tr (i + 2))) := by
  simp only [runBatchCalls, if_neg h]
  rw [foldl_recordOutcome_results]
  simp [recordOutcome, initialBatchState]

/-- Claim C5.  At every point of a batch run, in both modes, the running
statistics satisfy successCount + errorCount = total, where total counts all
recorded outcomes: the invariant holds after folding the recording step over
any prefix of recorded outcomes (both the sequential loop and the parallel
allSettled handler record through exactly these counter updates), and in
particular for the state reached by runBatchCalls. -/
theorem stats_success_add_error_eq_total :
    (∀ rs : List ApiResult,
      (rs.foldl recordOutcome initialBatchState).success +
          (rs.foldl recordOutcome initialBatchState).error =
        (rs.foldl recordOutcome initialBatchState).results.length) ∧
    (∀ (cfg : TestValues) (draws : Nat → ℚ × ℚ × ℚ) (tr : Nat → TransportResult) (count : Nat),
      (runBatchCalls cfg draws tr count).state.success +
          (runBatchCalls cfg draws tr count).state.error =
        (runBatchCalls cfg draws tr count).state.results.length) := by
  constructor
  · intro rs
    exact foldl_recordOutcome_invariant rs initialBatchState (by simp [initialBatchState])
  · intro cfg draws tr count
    by_cases h : cfg.dateString = "" ∨ cfg.nin = ""
    · simp [runBatchCalls, if_pos h, initialBatchState]
    · simp only [runBatchCalls, if_neg h]
      apply foldl_recordOutcome_param_invariant
      cases hs : (makeApiCallWithParams 1 ⟨cfg.dateString, cfg.nin⟩ (tr 1)).status <;>
        simp [recordOutcome, initialBatchState, hs]

theorem foldl_incAvgStep_spec :
    ∀ (ds : List ℚ) (a : ℚ) (n : Nat),
      (ds.foldl incAvgStep (a, n)).2 = n + ds.length ∧
      (ds.foldl incAvgStep (a, n)).1 * ((n : ℚ) + (ds.length : ℚ)) = a * (n : ℚ) + ds.sum := by
  intro ds
  induction ds with
  | nil => intro a n; simp
  | cons d t ih =>
      intro a n
      have hstep : incAvgStep (a, n) d = ((a * (n : ℚ) + d) / ((n : ℚ) + 1), n + 1) := rfl
      have hn1 : ((n : ℚ) + 1) ≠ 0 := by positivity
      have ha' : ((a * (n : ℚ) + d) / ((n : ℚ) + 1)) * ((n : ℚ) + 1) = a * (n : ℚ) + d :=
        div_mul_cancel₀ _ hn1
      obtain ⟨ih2, ih1⟩ := ih ((a * (n : ℚ) + d) / ((n : ℚ) + 1)) (n + 1)
      constructor
      · simp only [List.foldl_cons, hstep, ih2, List.length_cons]
        omega
      · simp only [List.foldl_cons, hstep, List.length_cons, List.sum_cons]
        push_cast
        push_cast at ih1
        calc (t.foldl incAvgStep ((a * (n : ℚ) + d) / ((n : ℚ) + 1), n + 1)).1 *
              ((n : ℚ) + ((t.length : ℚ) + 1))
            = (t.foldl incAvgStep ((a * (n : ℚ) + d) / ((n : ℚ) + 1), n + 1)).1 *
              (((n : ℚ) + 1) + (t.length : ℚ)) := by ring
          _ = ((a * (n : ℚ) + d) / ((n : ℚ) + 1)) * ((n : ℚ) + 1) + t.sum := ih1
          _ = a * (n : ℚ) + (d + t.sum) := by rw [ha']; ring

/-- Claim C3.  The incremental average kept by the batch loop (the update
averageTime = (averageTime * (total - 1) + duration) / total, seeded with the
zeroed statistics) is equivalent to brute-force recomputation: after folding
any duration sequence it equals the arithmetic mean sum / length (both sides
are 0 for the empty sequence), and its counter equals the length.  The
totalTime / length form published by displayedStats agrees with the same
mean. -/
theorem incrementalAverage_eq_mean :
    (∀ ds : List ℚ,
      (incrementalAverage ds).1 = ds.sum / (ds.length : ℚ) ∧
      (incrementalAverage ds).2 = ds.length) ∧
    (∀ rs : List ApiResult,
      (displayedStats (rs.foldl recordOutcome initialBatchState)).averageTime =
        (rs.map ApiResult.duration).sum / (rs.length : ℚ)) := by
  constructor
  · intro ds
    obtain ⟨h2, h1⟩ := foldl_incAvgStep_spec ds 0 0
    refine ⟨?_, by simpa using h2⟩
    cases ds with
    | nil => simp [incrementalAverage]
    | cons d t =>
        have hlen : (((d :: t).length : ℚ)) ≠ 0 := by
          simp [Nat.cast_add, Nat.cast_one]
          positivity
        rw [eq_div_iff hlen]
        simpa [incrementalAverage] using h1
  · intro rs
    have hlen := foldl_recordOutcome_length rs initialBatchState
    have htt := foldl_recordOutcome_totalTime rs initialBatchState
    simp only [displayedStats]
    rw [htt, hlen]
    simp [initialBatchState]

/-- Claim C1.  For a batch run with targetCount at least 1: when both canary
values are available (non-empty), the run starts, records exactly targetCount
outcomes, the first recorded call has id 1 and the externally supplied canary
parameters, and every later call with id j+1 in 2..targetCount uses the
randomly generated parameters built from that call's Math.random draws; when
either canary value is unavailable, the run fails before any call is issued,
no outcome is recorded, and the statistics remain all zero. -/
theorem canaryFirst (cfg : TestValues) (draws : Nat → ℚ × ℚ × ℚ)
    (tr : Nat → TransportResult) (count : Nat) (hcount : 1 ≤ count) :
    (¬(cfg.dateString = "" ∨ cfg.nin = "") →
      (runBatchCalls cfg draws tr count).startFailed = false ∧
      (runBatchCalls cfg draws tr count).state.results.length = count ∧
      ((runBatchCalls cfg draws tr count).state.results.get? 0).map
          (fun r => (r.id, r.params)) = some (1, ⟨cfg.dateString, cfg.nin⟩) ∧
      (∀ j, 1 ≤ j → j < count →
        ((runBatchCalls cfg draws tr count).state.results.get? j).map
            (fun r => (r.id, r.params)) = some (j + 1, randomParams (draws (j + 1))))) ∧
    ((cfg.dateString = "" ∨ cfg.nin = "") →
      (runBatchCalls cfg draws tr count).startFailed = true ∧
      (runBatchCalls cfg draws tr count).state.results = [] ∧
      displayedStats (runBatchCalls cfg draws tr count).state =
        { total := 0, success := 0, error := 0, averageTime := 0 }) := by
  constructor
  · intro h
    have hres := runBatchCalls_results cfg draws tr count h
    refine ⟨by simp [runBatchCalls, if_neg h], ?_, ?_, ?_⟩
    · rw [hres]; simp; omega
    · rw [hres]
      simp [makeApiCallWithParams_id, makeApiCallWithParams_params]
    · intro j hj1 hjc
      obtain ⟨m, rfl⟩ : ∃ m, j = m + 1 := ⟨j - 1, by omega⟩
      rw [hres]
      have hm : m < count - 1 := by omega
      have hr : (List.range (count - 1))[m]? = some m := List.getElem?_range hm
      simp [hr, makeApiCallWithParams_id, makeApiCallWithParams_params]
  · intro h
    simp [runBatchCalls, if_pos h, initialBatchState, displayedStats]

theorem canaryFirst_witness :
    1 ≤ 3 ∧
    ((¬((⟨"1444-01", "1063804759"⟩ : TestValues).dateString = "" ∨
        (⟨"1444-01", "1063804759"⟩ : TestValues).nin = "") →
      (runBatchCalls ⟨"1444-01", "1063804759"⟩ (fun _ => (0, 0, 0))
          (fun _ => .fetchThrow false "boom") 3).startFailed = false ∧
      (runBatchCalls ⟨"1444-01", "1063804759"⟩ (fun _ => (0, 0, 0))
          (fun _ => .fetchThrow false "boom") 3).state.results.length = 3 ∧
      ((runBatchCalls ⟨"1444-01", "1063804759"⟩ (fun _ => (0, 0, 0))
          (fun _ => .fetchThrow false "boom") 3).state.results.get? 0).map
          (fun r => (r.id, r.params)) =
        some (1, ⟨(⟨"1444-01", "1063804759"⟩ : TestValues).dateString,
          (⟨"1444-01", "1063804759"⟩ : TestValues).nin⟩) ∧
      (∀ j, 1 ≤ j → j < 3 →
        ((runBatchCalls ⟨"1444-01", "1063804759"⟩ (fun _ => (0, 0, 0))
            (fun _ => .fetchThrow false "boom") 3).state.results.get? j).map
            (fun r => (r.id, r.params)) =
          some (j + 1, randomParams ((fun _ => ((0 : ℚ), (0 : ℚ), (0 : ℚ))) (j + 1))))) ∧
    (((⟨"1444-01", "1063804759"⟩ : TestValues).dateString = "" ∨
        (⟨"1444-01", "1063804759"⟩ : TestValues).nin = "") →
      (runBatchCalls ⟨"1444-01", "1063804759"⟩ (fun _ => (0, 0, 0))
          (fun _ => .fetchThrow false "boom") 3).startFailed = true ∧
      (runBatchCalls ⟨"1444-01", "1063804759"⟩ (fun _ => (0, 0, 0))
          (fun _ => .fetchThrow false "boom") 3).state.results = [] ∧
      displayedStats (runBatchCalls ⟨"1444-01", "1063804759"⟩ (fun _ => (0, 0, 0))
          (fun _ => .fetchThrow false "boom") 3).state =
        { total := 0, success := 0, error := 0, averageTime := 0 })) :=
  ⟨by decide,
    canaryFirst ⟨"1444-01", "1063804759"⟩ (fun _ => (0, 0, 0))
      (fun _ => .fetchThrow false "boom") 3 (by decide)⟩

/-- Claim C8.  In sequential mode, for every uncancelled run with available
canary configuration and targetCount N at least 1 (the UI clamps the call
count to at least 1), the recorded stream of outcome ids is exactly
1, 2, ..., N in that order; recording happens in the single awaited loop, so
issue, completion and recording order coincide with this stream. -/
theorem sequentialIdsExact (cfg : TestValues) (draws : Nat → ℚ × ℚ × ℚ)
    (tr : Nat → TransportResult) (count : Nat)
    (h1 : cfg.dateString ≠ "") (h2 : cfg.nin ≠ "") (hcount : 1 ≤ count) :
    (runBatchCalls cfg draws tr count).state.results.map ApiResult.id =
      (List.range count).map (· + 1) := by
  have h : ¬(cfg.dateString = "" ∨ cfg.nin = "") := by tauto
  rw [runBatchCalls_results cfg draws tr count h]
  obtain ⟨n, rfl⟩ : ∃ n, count = n + 1 := ⟨count - 1, by omega⟩
  rw [List.range_succ_eq_map]
  simp only [List.map_cons, List.map_map, Nat.add_sub_cancel]
  congr 1
  · simp [makeApiCallWithParams_id]
  · apply List.map_congr_left
    intro a _
    simp [Function.comp, makeApiCallWithParams_id]

theorem sequentialIdsExact_witness :
    (⟨"1444-01", "1063804759"⟩ : TestValues).dateString ≠ "" ∧
    (⟨"1444-01", "1063804759"⟩ : TestValues).nin ≠ "" ∧ 1 ≤ 4 ∧
    (runBatchCalls ⟨"1444-01", "1063804759"⟩ (fun _ => (0, 0, 0))
        (fun _ => .parseFail 502 "Bad Gateway") 4).state.results.map ApiResult.id =
      (List.range 4).map (· + 1) :=
  ⟨by decide, by decide, by decide,
    sequentialIdsExact ⟨"1444-01", "1063804759"⟩ (fun _ => (0, 0, 0))
      (fun _ => .parseFail 502 "Bad Gateway") 4 (by decide) (by decide) (by decide)⟩

theorem floor_mul_bounds (r : ℚ) (c : ℕ) (h0 : 0 ≤ r) (h1 : r < 1) (hc : 0 < c) :
    0 ≤ Int.floor (r * (c : ℚ)) ∧ Int.floor (r * (c : ℚ)) < (c : ℤ) := by
  constructor
  · exact Int.floor_nonneg.mpr (by positivity)
  · rw [Int.floor_lt]
    push_cast
    calc r * (c : ℚ) < 1 * (c : ℚ) := by
          apply mul_lt_mul_of_pos_right h1
          exact_mod_cast hc
      _ = (c : ℚ) := one_mul _

set_option maxRecDepth 8192 in
/-- Claim C9.  For every Math.random draw in [0,1): the generated year lies in
1400..1499 and has exactly 4 decimal digits, the generated month lies in 1..12
and its zero-padded rendering has exactly 2 characters, the date string is the
year, a dash and the padded month in that order, and the generated nin lies in
100000000..999999999 and therefore has exactly 9 decimal digits. -/
theorem randomParamRanges (r1 r2 r3 : ℚ)
    (h10 : 0 ≤ r1) (h11 : r1 < 1) (h20 : 0 ≤ r2) (h21 : r2 < 1)
    (h30 : 0 ≤ r3) (h31 : r3 < 1) :
    (1400 ≤ generateRandomYear r1 ∧ generateRandomYear r1 ≤ 1499 ∧
      (Nat.digits 10 (generateRandomYear r1)).length = 4) ∧
    (1 ≤ generateRandomMonth r2 ∧ generateRandomMonth r2 ≤ 12 ∧
      (padMonth (generateRandomMonth r2)).length = 2) ∧
    generateRandomDateString r1 r2 =
      Nat.repr (generateRandomYear r1) ++ "-" ++ padMonth (generateRandomMonth r2) ∧
    (100000000 ≤ generateRandomNIN r3 ∧ generateRandomNIN r3 ≤ 999999999 ∧
      (Nat.digits 10 (generateRandomNIN r3)).length = 9) := by
  obtain ⟨hy0, hy1⟩ := floor_mul_bounds r1 100 h10 h11 (by norm_num)
  obtain ⟨hm0, hm1⟩ := floor_mul_bounds r2 12 h20 h21 (by norm_num)
  obtain ⟨hn0, hn1⟩ := floor_mul_bounds r3 900000000 h30 h31 (by norm_num)
  push_cast at hy0 hy1 hm0 hm1 hn0 hn1
  have hyb : 1400 ≤ generateRandomYear r1 ∧ generateRandomYear r1 ≤ 1499 := by
    unfold generateRandomYear; omega
  have hmb : 1 ≤ generateRandomMonth r2 ∧ generateRandomMonth r2 ≤ 12 := by
    unfold generateRandomMonth; omega
  have hnb : 100000000 ≤ generateRandomNIN r3 ∧ generateRandomNIN r3 ≤ 999999999 := by
    unfold generateRandomNIN; omega
  have keyMonth : ∀ i : Fin 12, (padMonth (1 + i.1)).length = 2 := by decide
  have hylen : (Nat.digits 10 (generateRandomYear r1)).length = 4 := by
    have hlog : Nat.log 10 (generateRandomYear r1) = 3 :=
      Nat.log_eq_of_pow_le_of_lt_pow (by norm_num; omega) (by norm_num; omega)
    rw [Nat.digits_len 10 _ (by norm_num) (by omega), hlog]
  have hmlen : (padMonth (generateRandomMonth r2)).length = 2 := by
    have h := keyMonth ⟨generateRandomMonth r2 - 1, by omega⟩
    have he : 1 + (generateRandomMonth r2 - 1) = generateRandomMonth r2 := by omega
    rwa [he] at h
  have hdig : (Nat.digits 10 (generateRandomNIN r3)).length = 9 := by
    have hlog : Nat.log 10 (generateRandomNIN r3) = 8 :=
      Nat.log_eq_of_pow_le_of_lt_pow (by norm_num; omega) (by norm_num; omega)
    rw [Nat.digits_len 10 _ (by norm_num) (by omega), hlog]
  exact ⟨⟨hyb.1, hyb.2, hylen⟩, ⟨hmb.1, hmb.2, hmlen⟩, rfl, hnb.1, hnb.2, hdig⟩

theorem randomParamRanges_witness :
    (0 ≤ (1 : ℚ)/2 ∧ (1 : ℚ)/2 < 1 ∧ 0 ≤ (1 : ℚ)/3 ∧ (1 : ℚ)/3 < 1 ∧
      0 ≤ (3 : ℚ)/4 ∧ (3 : ℚ)/4 < 1) ∧
    ((1400 ≤ generateRandomYear ((1 : ℚ)/2) ∧ generateRandomYear ((1 : ℚ)/2) ≤ 1499 ∧
      (Nat.digits 10 (generateRandomYear ((1 : ℚ)/2))).length = 4) ∧
    (1 ≤ generateRandomMonth ((1 : ℚ)/3) ∧ generateRandomMonth ((1 : ℚ)/3) ≤ 12 ∧
      (padMonth (generateRandomMonth ((1 : ℚ)/3))).length = 2) ∧
    generateRandomDateString ((1 : ℚ)/2) ((1 : ℚ)/3) =
      Nat.repr (generateRandomYear ((1 : ℚ)/2)) ++ "-" ++
        padMonth (generateRandomMonth ((1 : ℚ)/3)) ∧
    (100000000 ≤ generateRandomNIN ((3 : ℚ)/4) ∧
      generateRandomNIN ((3 : ℚ)/4) ≤ 999999999 ∧
      (Nat.digits 10 (generateRandomNIN ((3 : ℚ)/4))).length = 9)) :=
  ⟨by norm_num,
    randomParamRanges ((1 : ℚ)/2) ((1 : ℚ)/3) ((3 : ℚ)/4)
      (by norm_num) (by norm_num) (by norm_num) (by norm_num) (by norm_num) (by norm_num)⟩

/-- Counterexample to claim C6.  A call whose fetch rejects because the abort
signal fired does not produce a distinguished cancelled outcome that the
statistics ignore: the executor returns status error (the outcome type has no
cancelled alternative), and recording it bumps errorCount and total exactly
like any other error, so it is counted rather than ignored. -/
theorem cancelledOutcome_counterexample :
    (makeApiCallWithParams 7 ⟨"1444-01", "1063804759"⟩
        (.fetchThrow true "The user aborted a request.")).status = .error ∧
    (makeApiCallWithParams 7 ⟨"1444-01", "1063804759"⟩
        (.fetchThrow true "The user aborted a request.")).errorMsg = some "Request aborted" ∧
    (recordOutcome initialBatchState
        (makeApiCallWithParams 7 ⟨"1444-01", "1063804759"⟩
          (.fetchThrow true "The user aborted a request."))).error = 1 ∧
    (recordOutcome initialBatchState
        (makeApiCallWithParams 7 ⟨"1444-01", "1063804759"⟩
          (.fetchThrow true "The user aborted a request."))).results.length = 1 := by
  refine ⟨rfl, rfl, ?_, rfl⟩
  decide

/-- Claim C6 as amended.  When the abort signal has fired by the time the
fetch settles, the fetch rejects with an AbortError and the executor returns
an ordinary error outcome: status error, message 'Request aborted',
statusCode 0 and duration 0.  Recording it increments total and errorCount
and leaves successCount unchanged, exactly as for any other error; no
distinguished cancelled outcome exists. -/
theorem abortedCallRecordedAsError (id : Nat) (p : CallParams) (message : String)
    (s : BatchState) :
    (makeApiCallWithParams id p (.fetchThrow true message)).status = .error ∧
    (makeApiCallWithParams id p (.fetchThrow true message)).errorMsg = some "Request aborted" ∧
    (makeApiCallWithParams id p (.fetchThrow true message)).statusCode = 0 ∧
    (makeApiCallWithParams id p (.fetchThrow true message)).duration = 0 ∧
    (recordOutcome s (makeApiCallWithParams id p (.fetchThrow true message))).error =
      s.error + 1 ∧
    (recordOutcome s (makeApiCallWithParams id p (.fetchThrow true message))).success =
      s.success ∧
    (recordOutcome s (makeApiCallWithParams id p (.fetchThrow true message))).results.length =
      s.results.length + 1 := by
  refine ⟨rfl, rfl, rfl, rfl, ?_, ?_, by simp [recordOutcome, makeApiCallWithParams]⟩
  · simp [recordOutcome, makeApiCallWithParams]
  · simp [recordOutcome, makeApiCallWithParams]

/-- Counterexample to claim C7.  A transport-level failure on the upstream leg
(here a DNS failure, Node code ENOTFOUND) does not yield statusCode 0: the
proxy converts it into an HTTP 500 JSON error reply, and the browser records
the outcome with statusCode 500. -/
theorem transportErrorStatusCode_counterexample :
    (clientCall 2 ⟨"1450-03", "123456789"⟩
        (.fault (some "ENOTFOUND") "getaddrinfo ENOTFOUND internal.api.rer.nft" 0)).statusCode
      = 500 ∧
    (clientCall 2 ⟨"1450-03", "123456789"⟩
        (.fault (some "ENOTFOUND") "getaddrinfo ENOTFOUND internal.api.rer.nft" 0)).statusCode
      ≠ 0 := by
  constructor
  · decide
  · decide

/-- Claim C7 as amended.  Every transport-level failure is recorded as an
error outcome with a human-readable description and the run continues, but
the statusCode depends on where the fault occurs: a fault on the upstream leg
(timeout, connection refused, DNS, certificate) is converted by the proxy
into an HTTP 500 reply and recorded with statusCode 500, while a fault of the
browser-to-proxy fetch itself is recorded with statusCode 0.  With the canary
configuration available, a run over any transport, including one that fails
every call, still records all targetCount outcomes. -/
theorem transportErrorHandling (hcode : Option String) (hmsg : String) (t : ℚ)
    (id : Nat) (p : CallParams) (fmsg : String)
    (cfg : TestValues) (draws : Nat → ℚ × ℚ × ℚ) (tr : Nat → TransportResult) (count : Nat)
    (h1 : cfg.dateString ≠ "") (h2 : cfg.nin ≠ "") (hcount : 1 ≤ count) :
    ((clientCall id p (.fault hcode hmsg t)).status = .error ∧
      (clientCall id p (.fault hcode hmsg t)).statusCode = 500 ∧
      (clientCall id p (.fault hcode hmsg t)).errorMsg.isSome = true) ∧
    ((makeApiCallWithParams id p (.fetchThrow false fmsg)).status = .error ∧
      (makeApiCallWithParams id p (.fetchThrow false fmsg)).statusCode = 0 ∧
      (makeApiCallWithParams id p (.fetchThrow false fmsg)).errorMsg.isSome = true) ∧
    (runBatchCalls cfg draws tr count).state.results.length = count := by
  refine ⟨⟨?_, ?_, ?_⟩, ⟨rfl, rfl, rfl⟩, ?_⟩
  · simp [clientCall, proxyGET, makeApiCallWithParams, jsStrTruthy, jsOrNat]
  · simp [clientCall, proxyGET, makeApiCallWithParams, jsStrTruthy, jsOrNat]
  · simp [clientCall, proxyGET, makeApiCallWithParams, jsStrTruthy, jsOrNat]
  · have h : ¬(cfg.dateString = "" ∨ cfg.nin = "") := by tauto
    rw [runBatchCalls_results cfg draws tr count h]
    simp
    omega

theorem transportErrorHandling_witness :
    ((⟨"1444-01", "1063804759"⟩ : TestValues).dateString ≠ "" ∧
      (⟨"1444-01", "1063804759"⟩ : TestValues).nin ≠ "" ∧ 1 ≤ 2) ∧
    (((clientCall 5 ⟨"1450-03", "123456789"⟩
        (.fault (some "ETIMEDOUT") "socket hang up" 30000)).status = .error ∧
      (clientCall 5 ⟨"1450-03", "123456789"⟩
        (.fault (some "ETIMEDOUT") "socket hang up" 30000)).statusCode = 500 ∧
      (clientCall 5 ⟨"1450-03", "123456789"⟩
        (.fault (some "ETIMEDOUT") "socket hang up" 30000)).errorMsg.isSome = true) ∧
    ((makeApiCallWithParams 5 ⟨"1450-03", "123456789"⟩
        (.fetchThrow false "Failed to fetch")).status = .error ∧
      (makeApiCallWithParams 5 ⟨"1450-03", "123456789"⟩
        (.fetchThrow false "Failed to fetch")).statusCode = 0 ∧
      (makeApiCallWithParams 5 ⟨"1450-03", "123456789"⟩
        (.fetchThrow false "Failed to fetch")).errorMsg.isSome = true) ∧
    (runBatchCalls ⟨"1444-01", "1063804759"⟩ (fun _ => (0, 0, 0))
        (fun _ => .fetchThrow false "Failed to fetch") 2).state.results.length = 2) :=
  ⟨⟨by decide, by decide, by decide⟩,
    transportErrorHandling (some "ETIMEDOUT") "socket hang up" 30000 5
      ⟨"1450-03", "123456789"⟩ "Failed to fetch" ⟨"1444-01", "1063804759"⟩
      (fun _ => (0, 0, 0)) (fun _ => .fetchThrow false "Failed to fetch") 2
      (by decide) (by decide) (by decide)⟩

/-! Sliding-window lemmas for the time-series buffer. -/

theorem length_takeLast (n : Nat) (xs : List α) :
    (takeLast n xs).length = min n xs.length := by
  simp only [takeLast, List.length_drop]
  omega

theorem takeLast_of_length_le {n : Nat} {xs : List α} (h : xs.length ≤ n) :
    takeLast n xs = xs := by
  simp [takeLast, Nat.sub_eq_zero_of_le h]

theorem takeLast_append_right {n : Nat} {c : List α} (xs : List α) (h : n ≤ c.length) :
    takeLast n (xs ++ c) = takeLast n c := by
  simp only [takeLast, List.length_append, List.drop_append_eq_append_drop]
  rw [List.drop_eq_nil_of_le (by omega)]
  have he : xs.length + c.length - n - xs.length = c.length - n := by omega
  rw [he]
  simp

theorem takeLast_append_of_le {n : Nat} {c : List α} (xs : List α) (h : c.length ≤ n) :
    takeLast n (xs ++ c) = takeLast (n - c.length) xs ++ c := by
  simp only [takeLast, List.length_append, List.drop_append_eq_append_drop]
  have h2 : xs.length + c.length - n - xs.length = 0 := by omega
  have h3 : xs.length + c.length - n = xs.length - (n - c.length) := by omega
  rw [h2, h3, List.drop_zero]

theorem takeLast_takeLast (m n : Nat) (xs : List α) :
    takeLast m (takeLast n xs) = takeLast (min m n) xs := by
  simp only [takeLast, List.length_drop, List.drop_drop]
  congr 1
  omega

theorem takeLast_absorb (n : Nat) (xs c : List α) :
    takeLast n (takeLast n xs ++ c) = takeLast n (xs ++ c) := by
  by_cases h : n ≤ c.length
  · rw [takeLast_append_right _ h, takeLast_append_right _ h]
  · push_neg at h
    rw [takeLast_append_of_le _ (le_of_lt h), takeLast_append_of_le _ (le_of_lt h),
      takeLast_takeLast, min_eq_left (by omega)]

theorem graphFlush100_eq (prev c : List GraphPoint) :
    graphFlush100 prev c = takeLast 100 (prev ++ c) := by
  simp only [graphFlush100, jsSliceFrom, takeLast]
  rw [if_pos (by norm_num : (-100 : Int) < 0)]
  congr 1
  omega

theorem foldl_graphFlush100 :
    ∀ (chunks : List (List GraphPoint)) (xs : List GraphPoint),
      chunks.foldl graphFlush100 (takeLast 100 xs) = takeLast 100 (xs ++ chunks.join) := by
  intro chunks
  induction chunks with
  | nil => intro xs; simp
  | cons c cs ih =>
      intro xs
      rw [List.foldl_cons, graphFlush100_eq, takeLast_absorb, ih (xs ++ c)]
      simp

theorem updateUIFlush_eq (cap : Nat) (xs c : List GraphPoint) (hc : c.length < cap) :
    updateUIFlush cap (takeLast cap xs) c = takeLast cap (xs ++ c) := by
  have hpl : (takeLast cap xs).length = min cap xs.length := length_takeLast _ _
  by_cases h : (takeLast cap xs).length + c.length ≤ cap
  · rw [updateUIFlush, if_pos h]
    by_cases hx : xs.length ≤ cap
    · rw [takeLast_of_length_le hx, takeLast_of_length_le (by simp; omega)]
    · push_neg at hx
      have hc0 : c = [] := List.length_eq_zero.mp (by omega)
      subst hc0
      simp
  · rw [updateUIFlush, if_neg h]
    have harg : jsSliceFrom (takeLast cap xs) (-((cap : Int) - (c.length : Int))) =
        takeLast (cap - c.length) (takeLast cap xs) := by
      simp only [jsSliceFrom, takeLast]
      rw [if_pos (by omega : -((cap : Int) - (c.length : Int)) < 0)]
      congr 1
      omega
    rw [harg, takeLast_takeLast, min_eq_left (by omega),
      takeLast_append_of_le _ (le_of_lt hc)]

theorem foldl_updateUIFlush (cap : Nat) :
    ∀ (chunks : List (List GraphPoint)) (xs : List GraphPoint),
      (∀ c ∈ chunks, c.length < cap) →
      chunks.foldl (updateUIFlush cap) (takeLast cap xs) = takeLast cap (xs ++ chunks.join) := by
  intro chunks
  induction chunks with
  | nil => intro xs _; simp
  | cons c cs ih =>
      intro xs h
      rw [List.foldl_cons, updateUIFlush_eq cap xs c (h c (by simp))]
      rw [ih (xs ++ c) (fun d hd => h d (by simp [hd]))]
      simp

/-- Counterexample to claim C4.  The page.tsx flush can push the buffer past
its configured capacity: with capacity 50 (an allowed configuration value),
one point already in the buffer and a staged chunk of exactly 50 points, the
trim prev.slice(-(capacity - chunk.length)) becomes prev.slice(-0), which
keeps all of prev, and the flushed buffer holds 51 > 50 points. -/
theorem graphBufferOverCapacity_counterexample :
    (graphSeriesPage 50
        [[⟨"1", 120, 1, 0⟩], List.replicate 50 ⟨"2", 80, 0, 1⟩]).length = 51 ∧
    ¬(graphSeriesPage 50
        [[⟨"1", 120, 1, 0⟩], List.replicate 50 ⟨"2", 80, 0, 1⟩]).length ≤ 50 := by
  constructor
  · decide
  · decide

/-- Claim C4 as amended.  Both flush variants maintain the sliding window as
long as every staged chunk is strictly smaller than the capacity (the
part_002 variant needs no such hypothesis): the buffer always equals the last
capacity points of everything appended, in append order, and in particular
never exceeds the capacity; the page.tsx variant violates the bound when a
staged chunk reaches the capacity. -/
theorem graphBufferSlidingWindow (cap : Nat) (chunks : List (List GraphPoint))
    (h : ∀ c ∈ chunks, c.length < cap) :
    graphSeriesPage cap chunks = takeLast cap chunks.join ∧
    (graphSeriesPage cap chunks).length ≤ cap ∧
    graphSeries100 chunks = takeLast 100 chunks.join ∧
    (graphSeries100 chunks).length ≤ 100 := by
  have hpage : graphSeriesPage cap chunks = takeLast cap chunks.join := by
    have := foldl_updateUIFlush cap chunks [] h
    simpa [graphSeriesPage, takeLast] using this
  have h100 : graphSeries100 chunks = takeLast 100 chunks.join := by
    have := foldl_graphFlush100 chunks []
    simpa [graphSeries100, takeLast] using this
  refine ⟨hpage, ?_, h100, ?_⟩
  · rw [hpage, length_takeLast]; omega
  · rw [h100, length_takeLast]; omega

theorem graphBufferSlidingWindow_witness :
    (∀ c ∈ [[(⟨"1", 120, 1, 0⟩ : GraphPoint)],
        [⟨"2", 80, 0, 1⟩, ⟨"3", 95, 1, 0⟩]], c.length < 3) ∧
    (graphSeriesPage 3 [[(⟨"1", 120, 1, 0⟩ : GraphPoint)],
        [⟨"2", 80, 0, 1⟩, ⟨"3", 95, 1, 0⟩]] =
      takeLast 3 [[(⟨"1", 120, 1, 0⟩ : GraphPoint)],
        [⟨"2", 80, 0, 1⟩, ⟨"3", 95, 1, 0⟩]].join ∧
    (graphSeriesPage 3 [[(⟨"1", 120, 1, 0⟩ : GraphPoint)],
        [⟨"2", 80, 0, 1⟩, ⟨"3", 95, 1, 0⟩]]).length ≤ 3 ∧
    graphSeries100 [[(⟨"1", 120, 1, 0⟩ : GraphPoint)],
        [⟨"2", 80, 0, 1⟩, ⟨"3", 95, 1, 0⟩]] =
      takeLast 100 [[(⟨"1", 120, 1, 0⟩ : GraphPoint)],
        [⟨"2", 80, 0, 1⟩, ⟨"3", 95, 1, 0⟩]].join ∧
    (graphSeries100 [[(⟨"1", 120, 1, 0⟩ : GraphPoint)],
        [⟨"2", 80, 0, 1⟩, ⟨"3", 95, 1, 0⟩]]).length ≤ 100) :=
  ⟨by intro c hc; fin_cases hc <;> decide,
    graphBufferSlidingWindow 3 _ (by intro c hc; fin_cases hc <;> decide)⟩

/-! Pool-size lemmas for the parallel runner trace. -/

theorem chunkEvents_length (start s : Nat) : (chunkEvents start s).length = s + s := by
  simp [chunkEvents]

theorem countP_issue_chunk (start s : Nat) :
    (chunkEvents start s).countP PoolEvent.isIssue = s := by
  rw [chunkEvents, List.countP_append]
  have hall : ∀ e ∈ (List.range s).map (fun j => PoolEvent.issue (start + j + 2)),
      PoolEvent.isIssue e := by
    intro e he
    obtain ⟨j, _, rfl⟩ := List.mem_map.mp he
    rfl
  have hnone : ∀ e ∈ (List.range s).map (fun j => PoolEvent.record (start + j + 2)),
      ¬ PoolEvent.isIssue e := by
    intro e he
    obtain ⟨j, _, rfl⟩ := List.mem_map.mp he
    simp [PoolEvent.isIssue]
  rw [List.countP_eq_length.mpr hall, List.countP_eq_zero.mpr hnone]
  simp

theorem countP_record_chunk (start s : Nat) :
    (chunkEvents start s).countP (fun e => !e.isIssue) = s := by
  rw [chunkEvents, List.countP_append]
  have hnone : ∀ e ∈ (List.range s).map (fun j => PoolEvent.issue (start + j + 2)),
      ¬ (!PoolEvent.isIssue e) := by
    intro e he
    obtain ⟨j, _, rfl⟩ := List.mem_map.mp he
    simp [PoolEvent.isIssue]
  have hall : ∀ e ∈ (List.range s).map (fun j => PoolEvent.record (start + j + 2)),
      (!PoolEvent.isIssue e) := by
    intro e he
    obtain ⟨j, _, rfl⟩ := List.mem_map.mp he
    rfl
  rw [List.countP_eq_zero.mpr hnone, List.countP_eq_length.mpr hall]
  simp

theorem inflight_chunk_take_le (start s n : Nat) :
    inflight ((chunkEvents start s).take n) ≤ s := by
  rw [chunkEvents, List.take_append_eq_append_take, inflight, List.countP_append,
    List.countP_append]
  have hIa : (((List.range s).map (fun j => PoolEvent.issue (start + j + 2))).take n).countP
      PoolEvent.isIssue =
      (((List.range s).map (fun j => PoolEvent.issue (start + j + 2))).take n).length := by
    apply List.countP_eq_length.mpr
    intro e he
    obtain ⟨j, _, rfl⟩ := List.mem_map.mp (List.mem_of_mem_take he)
    simp [PoolEvent.isIssue]
  have hRb : ((((List.range s).map (fun j => PoolEvent.record (start + j + 2))).take
      (n - ((List.range s).map (fun j => PoolEvent.issue (start + j + 2))).length)).countP
      PoolEvent.isIssue) = 0 := by
    apply List.countP_eq_zero.mpr
    intro e he
    obtain ⟨j, _, rfl⟩ := List.mem_map.mp (List.mem_of_mem_take he)
    simp [PoolEvent.isIssue]
  have hlen : (((List.range s).map (fun j => PoolEvent.issue (start + j + 2))).take n).length ≤
      s := by
    simp
  omega

theorem inflight_append_balanced (x y : List PoolEvent)
    (h : x.countP PoolEvent.isIssue = x.countP (fun e => !e.isIssue)) :
    inflight (x ++ y) = inflight y := by
  rw [inflight, inflight, List.countP_append, List.countP_append, h]
  omega

theorem inflight_parallelTraceAux_le (K : Nat) :
    ∀ (fuel start remaining n : Nat),
      inflight ((parallelTraceAux K fuel start remaining).take n) ≤ K := by
  intro fuel
  induction fuel with
  | zero => intro start remaining n; simp [parallelTraceAux, inflight]
  | succ f ih =>
      intro start remaining n
      by_cases h : 0 < K ∧ 0 < remaining
      · rw [parallelTraceAux, if_pos h]
        have hs : min K remaining ≤ K := min_le_left _ _
        by_cases hn : n ≤ (chunkEvents start (min K remaining)).length
        · rw [List.take_append_eq_append_take, Nat.sub_eq_zero_of_le hn, List.take_zero,
            List.append_nil]
          exact le_trans (inflight_chunk_take_le _ _ _) hs
        · push_neg at hn
          rw [List.take_append_eq_append_take,
            List.take_of_length_le (le_of_lt (by omega)),
            inflight_append_balanced _ _ (by rw [countP_issue_chunk, countP_record_chunk])]
          exact ih _ _ _
      · rw [parallelTraceAux, if_neg h]
        simp [inflight]

/-- Counterexample to claim C2.  In the parallel runner with concurrency 2 and
4 remaining calls, the recorded completion of call 2 leaves calls 4 and 5
still unissued, yet the next scheduler event is the recording of call 3, not
a dispatch: the loop awaits each whole Promise.allSettled chunk before
issuing anything new, so the pool is not refilled as soon as one call
completes, and the issued-but-unrecorded count drops to 1 < 2 while work
remains. -/
theorem parallelPoolRefill_counterexample :
    ¬ immediateRefill (parallelTrace 2 4) ∧
    inflight ((parallelTrace 2 4).take 3) = 1 ∧
    (parallelTrace 2 4).countP PoolEvent.isIssue = 4 ∧
    ((parallelTrace 2 4).take 3).countP PoolEvent.isIssue = 2 := by
  refine ⟨?_, by decide, by decide, by decide⟩
  intro href
  have h := href ⟨2, by decide⟩ (by decide) (by decide)
  exact absurd h (by decide)

/-- Claim C2 as amended.  In parallel mode with concurrency K, at every point
of the run the number of issued-but-not-recorded calls is at most K; the
immediate-refill half of the claim does not hold, because calls are issued in
chunks of up to K that are awaited as a whole. -/
theorem parallelPoolBounded (K remaining n : Nat) :
    inflight ((parallelTrace K remaining).take n) ≤ K :=
  inflight_parallelTraceAux_le K remaining 0 remaining n

/-! Lemmas for the retry helper. -/

theorem withRetryLoop_invocations_le (fn : Nat → Except ErrObj α) (cfg : RetryConfig) :
    ∀ (fuel attempt rc : Nat), (withRetryLoop fn cfg fuel attempt rc).invocations ≤ fuel := by
  intro fuel
  induction fuel with
  | zero => intro a rc; simp [withRetryLoop]
  | succ f ih =>
      intro a rc
      simp only [withRetryLoop]
      cases hfa : fn a with
      | ok v => simp
      | error e =>
          by_cases h1 : a < cfg.maxRetries
          · by_cases h2 : isRetryable cfg e
            · simp only [if_pos h1, if_pos h2]
              have := ih (a + 1) (rc + 1)
              simpa using Nat.add_le_add_right this 1
            · simp [if_pos h1, h2]
          · simp [h1]

theorem withRetryLoop_skip (fn : Nat → Except ErrObj α) (cfg : RetryConfig) :
    ∀ (k fuel attempt rc : Nat),
      (∀ j, j < k → ∃ e, fn (attempt + j) = .error e ∧ isRetryable cfg e = true) →
      attempt + k ≤ cfg.maxRetries →
      cfg.maxRetries < attempt + fuel →
      withRetryLoop fn cfg fuel attempt rc =
        { outcome := (withRetryLoop fn cfg (fuel - k) (attempt + k) (rc + k)).outcome,
          invocations :=
            (withRetryLoop fn cfg (fuel - k) (attempt + k) (rc + k)).invocations + k } := by
  intro k
  induction k with
  | zero => intro fuel a rc _ _ _; simp
  | succ m ih =>
      intro fuel a rc hj hle hfuel
      obtain ⟨e, he, hr⟩ := hj 0 (by omega)
      rw [Nat.add_zero] at he
      obtain ⟨f, rfl⟩ : ∃ f, fuel = f + 1 := ⟨fuel - 1, by omega⟩
      have hstep : withRetryLoop fn cfg (f + 1) a rc =
          { outcome := (withRetryLoop fn cfg f (a + 1) (rc + 1)).outcome,
            invocations := (withRetryLoop fn cfg f (a + 1) (rc + 1)).invocations + 1 } := by
        simp only [withRetryLoop, he, if_pos (show a < cfg.maxRetries by omega), hr, if_true]
      rw [hstep, ih f (a + 1) (rc + 1)
        (fun j hjm => by
          obtain ⟨ej, hej, hrj⟩ := hj (j + 1) (by omega)
          exact ⟨ej, by rwa [show a + (j + 1) = a + 1 + j by omega] at hej, hrj⟩)
        (by omega) (by omega)]
      have e1 : f + 1 - (m + 1) = f - m := by omega
      have e2 : a + (m + 1) = a + 1 + m := by omega
      have e3 : rc + (m + 1) = rc + 1 + m := by omega
      rw [e1, e2, e3]
      simp only [RetryRun.mk.injEq]
      exact ⟨trivial, by omega⟩

/-- Claim C10.  The retry helper invokes fn at most maxRetries + 1 times; when
the run reaches an attempt whose error is not retryable (its statusCode is not
among retryableStatusCodes and its code is none of ETIMEDOUT, ECONNRESET,
ENOTFOUND), that error is rethrown with no further invocations; and a run that
reaches a successful attempt k after k retryable failures returns the value
with retryCount k, having invoked fn exactly k + 1 times. -/
theorem withRetryContract (fn : Nat → Except ErrObj α) (cfg : RetryConfig) :
    (withRetry fn cfg).invocations ≤ cfg.maxRetries + 1 ∧
    (∀ k e, (∀ j, j < k → ∃ ej, fn j = .error ej ∧ isRetryable cfg ej = true) →
      k ≤ cfg.maxRetries → fn k = .error e → isRetryable cfg e = false →
      (withRetry fn cfg).outcome = .err e ∧ (withRetry fn cfg).invocations = k + 1) ∧
    (∀ k v, (∀ j, j < k → ∃ ej, fn j = .error ej ∧ isRetryable cfg ej = true) →
      k ≤ cfg.maxRetries → fn k = .ok v →
      (withRetry fn cfg).outcome = .ok v k ∧ (withRetry fn cfg).invocations = k + 1) := by
  refine ⟨withRetryLoop_invocations_le fn cfg _ 0 0, ?_, ?_⟩
  · intro k e hj hk he hnr
    have hskip := withRetryLoop_skip fn cfg k (cfg.maxRetries + 1) 0 0
      (by simpa using hj) (by omega) (by omega)
    obtain ⟨f, hf⟩ : ∃ f, cfg.maxRetries + 1 - k = f + 1 := ⟨cfg.maxRetries - k, by omega⟩
    have hzk : (0 : Nat) + k = k := by omega
    have hstep : withRetryLoop fn cfg (cfg.maxRetries + 1 - k) k k =
        { outcome := .err e, invocations := 1 } := by
      rw [hf]
      by_cases hlt : k < cfg.maxRetries
      · simp only [withRetryLoop, he, if_pos hlt, hnr]
        simp
      · simp only [withRetryLoop, he, if_neg hlt]
    rw [withRetry, hskip, hzk, hstep]
    exact ⟨rfl, by show 1 + k = k + 1; omega⟩
  · intro k v hj hk he
    have hskip := withRetryLoop_skip fn cfg k (cfg.maxRetries + 1) 0 0
      (by simpa using hj) (by omega) (by omega)
    obtain ⟨f, hf⟩ : ∃ f, cfg.maxRetries + 1 - k = f + 1 := ⟨cfg.maxRetries - k, by omega⟩
    have hzk : (0 : Nat) + k = k := by omega
    have hstep : withRetryLoop fn cfg (cfg.maxRetries + 1 - k) k k =
        { outcome := .ok v k, invocations := 1 } := by
      rw [hf]
      simp only [withRetryLoop, he]
    rw [withRetry, hskip, hzk, hstep]
    exact ⟨rfl, by show 1 + k = k + 1; omega⟩

theorem withRetryContract_witness :
    ((∀ j, j < 2 → ∃ ej,
        (fun kk => if kk < 2 then Except.error (⟨some 500, none⟩ : ErrObj)
          else Except.ok (42 : Nat)) j = .error ej ∧
        isRetryable ⟨3, 1000, [500, 502, 503, 504, 408]⟩ ej = true) ∧
      2 ≤ (⟨3, 1000, [500, 502, 503, 504, 408]⟩ : RetryConfig).maxRetries ∧
      (fun kk => if kk < 2 then Except.error (⟨some 500, none⟩ : ErrObj)
        else Except.ok (42 : Nat)) 2 = .ok 42) ∧
    ((withRetry (fun kk => if kk < 2 then Except.error (⟨some 500, none⟩ : ErrObj)
        else Except.ok (42 : Nat)) ⟨3, 1000, [500, 502, 503, 504, 408]⟩).outcome =
      .ok 42 2 ∧
     (withRetry (fun kk => if kk < 2 then Except.error (⟨some 500, none⟩ : ErrObj)
        else Except.ok (42 : Nat)) ⟨3, 1000, [500, 502, 503, 504, 408]⟩).invocations = 3) := by
  have hj : ∀ j, j < 2 → ∃ ej,
      (fun kk => if kk < 2 then Except.error (⟨some 500, none⟩ : ErrObj)
        else Except.ok (42 : Nat)) j = .error ej ∧
      isRetryable ⟨3, 1000, [500, 502, 503, 504, 408]⟩ ej = true := by
    intro j hjlt
    refine ⟨⟨some 500, none⟩, ?_, by decide⟩
    interval_cases j <;> rfl
  exact ⟨⟨hj, by decide, rfl⟩,
    (withRetryContract (fun kk => if kk < 2 then Except.error (⟨some 500, none⟩ : ErrObj)
        else Except.ok (42 : Nat)) ⟨3, 1000, [500, 502, 503, 504, 408]⟩).2.2 2 42
      hj (by decide) rfl⟩

end Yakeen
